import Mathlib

/-!
Verification of the RoBAss risk-of-bias decision engine.

The definitions below are shallow embeddings of the Python modules under
`algorithms/rob2_parallel` and `algorithms/robins_e_2`:

* `Rob2D1.assess_randomization_bias` embeds `rob2_domain1.assess_randomization_bias`;
* `Rob2Overall.assess_overall_rob2` embeds `rob2_overall.assess_overall_rob2`
  (the sequential mutation of `overall_risk` / `reasoning` is split into
  `computeCore` followed by `applyOverride`, exactly mirroring the source order);
* `RobinsEOverall` embeds `robins_e_overall.py` (`_determine_overall_risk`,
  `assess_overall_bias_risk`, `assess_conclusion_threat`);
* `RobinsED7` embeds `robins_e_domain7.py`;
* `RobinsED1` embeds the two confounding variants of `robins_e_domain1.py`;
* `RobinsED3.assess_pathway_a` embeds `robins_e_domain3._assess_pathway_a`.

Python `raise ValueError(msg)` is modelled as `Except.error msg`; Python
dictionaries of responses are modelled positionally (with `Option` for
possibly-missing keys); enum `.value` strings and all rationale strings are
carried verbatim.
-/

namespace Rob2D1

/-- Executable model of Python `str.upper()` (character-wise uppercasing, as
the source applies it to short ASCII answer tokens). -/
def pyUpper (s : String) : String := String.mk (s.data.map Char.toUpper)

/-- Valid raw tokens for the RoB 2 domain 1 signalling questions. -/
def validResponses : List String := ["Y", "PY", "PN", "N", "NI"]

/-- Embedding of `assess_randomization_bias` from `rob2_domain1.py`.
Arguments are the raw strings `q1_sequence_random`, `q2_allocation_concealed`,
`q3_baseline_imbalance`; the result is `(risk_level, reasoning)` or the
`ValueError` message. -/
def assess_randomization_bias (q1s q2s q3s : String) :
    Except String (String × String) :=
  let q1 := pyUpper q1s
  let q2 := pyUpper q2s
  let q3 := pyUpper q3s
  if q1 ∉ validResponses ∨ q2 ∉ validResponses ∨ q3 ∉ validResponses then
    Except.error "Invalid response. Use: Y, PY, PN, N, or NI"
  else if q2 ∈ ["Y", "PY"] ∧ q3 ∈ ["N", "PN", "NI"] ∧ q1 ∈ ["Y", "PY", "NI"] then
    Except.ok ("Low",
      "Allocation sequence adequately concealed, no concerning baseline imbalances, and randomization appropriate")
  else if q2 ∈ ["N", "PN"] ∨ (q2 = "NI" ∧ q3 ∈ ["Y", "PY"]) then
    Except.ok ("High",
      "Allocation sequence not adequately concealed or baseline imbalances suggest randomization problems")
  else if q1 ∈ ["N", "PN"] ∧ q3 ∈ ["Y", "PY"] then
    Except.ok ("High",
      "Non-random sequence generation with baseline imbalances suggesting problems")
  else
    let parts :=
      (if q1 ∈ ["N", "PN"] then ["non-random or probably non-random sequence generation"] else []) ++
      (if q2 = "NI" then ["no information about allocation concealment"] else []) ++
      (if q3 ∈ ["Y", "PY"] then ["baseline imbalances suggest potential problems"] else [])
    let reasoning :=
      if parts ≠ [] then "Some concerns due to: " ++ String.intercalate ", " parts
      else "Some concerns - intermediate risk scenario not meeting low or high risk criteria"
    Except.ok ("Some concerns", reasoning)

/-- The declared answer alphabet of the RoB 2 domain 1 questions. -/
inductive Resp
  | Y | PY | PN | N | NI
deriving DecidableEq, Fintype

/-- Canonical token of each alphabet member. -/
def Resp.tok : Resp → String
  | .Y => "Y"
  | .PY => "PY"
  | .PN => "PN"
  | .N => "N"
  | .NI => "NI"

/-- Risk component of an evaluator outcome, if one was produced. -/
def riskOf (r : Except String (String × String)) : Option String :=
  match r with
  | .ok p => some p.1
  | .error _ => none

set_option synthInstance.maxSize 1000 in
set_option maxHeartbeats 2000000 in
/-- C4: over the declared alphabet (after uppercasing), the trial randomization
evaluator returns Low iff concealment (q2) is Y/PY and baseline imbalance (q3)
is N/PN/NI and sequence (q1) is Y/PY/NI; it returns High iff concealment is
N/PN, or concealment is NI with imbalance Y/PY, or sequence is N/PN with
imbalance Y/PY; and every other combination yields Some concerns. -/
theorem rob2_domain1_decision_table (a b c : Resp) :
    (riskOf (assess_randomization_bias a.tok b.tok c.tok) = some "Low" ↔
      (b = .Y ∨ b = .PY) ∧ (c = .N ∨ c = .PN ∨ c = .NI) ∧ (a = .Y ∨ a = .PY ∨ a = .NI)) ∧
    (riskOf (assess_randomization_bias a.tok b.tok c.tok) = some "High" ↔
      ((b = .N ∨ b = .PN) ∨ (b = .NI ∧ (c = .Y ∨ c = .PY)) ∨
        ((a = .N ∨ a = .PN) ∧ (c = .Y ∨ c = .PY)))) ∧
    (riskOf (assess_randomization_bias a.tok b.tok c.tok) = some "Some concerns" ↔
      (¬ ((b = .Y ∨ b = .PY) ∧ (c = .N ∨ c = .PN ∨ c = .NI) ∧ (a = .Y ∨ a = .PY ∨ a = .NI)) ∧
        ¬ ((b = .N ∨ b = .PN) ∨ (b = .NI ∧ (c = .Y ∨ c = .PY)) ∨
            ((a = .N ∨ a = .PN) ∧ (c = .Y ∨ c = .PY))))) := by
  revert a b c
  decide

/-- C8: a triple of raw strings is accepted by the trial randomization
evaluator exactly when each uppercased string is in the declared alphabet;
any other input yields the ValueError message and no verdict. -/
theorem rob2_domain1_alphabet_closure (s1 s2 s3 : String) :
    ((∃ v, assess_randomization_bias s1 s2 s3 = Except.ok v) ↔
      (pyUpper s1 ∈ validResponses ∧ pyUpper s2 ∈ validResponses ∧
        pyUpper s3 ∈ validResponses)) ∧
    ((pyUpper s1 ∉ validResponses ∨ pyUpper s2 ∉ validResponses ∨
        pyUpper s3 ∉ validResponses) →
      assess_randomization_bias s1 s2 s3 =
        Except.error "Invalid response. Use: Y, PY, PN, N, or NI") := by
  constructor
  · constructor
    · rintro ⟨v, hv⟩
      by_contra hvalid
      rw [assess_randomization_bias] at hv
      rw [if_pos] at hv
      · exact Except.noConfusion hv
      · tauto
    · rintro ⟨h1, h2, h3⟩
      rw [assess_randomization_bias]
      rw [if_neg (by tauto)]
      split_ifs <;> exact ⟨_, rfl⟩
  · intro hbad
    rw [assess_randomization_bias]
    rw [if_pos (by tauto)]

/-- Closed instance of the C8 theorem: the out-of-alphabet token MAYBE is
rejected with the ValueError message. -/
theorem rob2_domain1_alphabet_closure_witness :
    pyUpper "MAYBE" ∉ validResponses ∧
      assess_randomization_bias "Y" "PY" "MAYBE" =
        Except.error "Invalid response. Use: Y, PY, PN, N, or NI" :=
  ⟨by decide,
    (rob2_domain1_alphabet_closure "Y" "PY" "MAYBE").2 (Or.inr (Or.inr (by decide)))⟩

end Rob2D1

namespace Rob2Overall

/-- Executable model of Python `str.strip()`: whitespace removed from both
ends. -/
def pyStrip (s : String) : String :=
  String.mk (((s.data.dropWhile Char.isWhitespace).reverse.dropWhile Char.isWhitespace).reverse)

/-- The `valid_risks` list of `assess_overall_rob2`. -/
def valid_risks : List String := ["Low", "Some concerns", "High"]

/-- The `domain_names` list of `assess_overall_rob2`. -/
def domain_names : List String :=
  ["Domain 1 (Randomization)", "Domain 2 (Deviations)", "Domain 3 (Missing data)",
   "Domain 4 (Outcome measurement)", "Domain 5 (Selective reporting)"]

/-- Result triple of `assess_overall_rob2`: overall risk, reasoning, and the
domain summary (key, domain name, risk). -/
structure OverallResult where
  overall_risk : String
  reasoning : String
  domain_summary : List (String × String × String)
deriving DecidableEq

/-- Embedding of the source comprehension
`[domain_names[i] for i, risk in enumerate(risks) if risk == level]`. -/
def matchingDomains (risks : List String) (level : String) : List String :=
  (domain_names.zip risks).filterMap fun p => if p.2 = level then some p.1 else none

/-- Embedding of the `domain_summary` construction of `assess_overall_rob2`. -/
def summaryOf (risks : List String) : List (String × String × String) :=
  (List.zip ["domain_1", "domain_2", "domain_3", "domain_4", "domain_5"]
      (domain_names.zip risks)).map fun p => (p.1, p.2.1, p.2.2)

/-- The core combination rules of `assess_overall_rob2` (the part of the
source before the override block), on the already-stripped risk list. -/
def computeCore (risks : List String) : OverallResult :=
  let high_count := risks.count "High"
  let some_concerns_count := risks.count "Some concerns"
  let domain_summary := summaryOf risks
  if high_count ≥ 1 then
    { overall_risk := "High",
      reasoning := "High risk of bias in: " ++
        String.intercalate ", " (matchingDomains risks "High"),
      domain_summary := domain_summary }
  else if some_concerns_count = 0 then
    { overall_risk := "Low",
      reasoning := "Low risk of bias across all domains",
      domain_summary := domain_summary }
  else if some_concerns_count ≥ 3 then
    { overall_risk := "High",
      reasoning := "Some concerns in multiple domains substantially lower confidence: " ++
        String.intercalate ", " (matchingDomains risks "Some concerns"),
      domain_summary := domain_summary }
  else
    { overall_risk := "Some concerns",
      reasoning := "Some concerns identified in: " ++
        String.intercalate ", " (matchingDomains risks "Some concerns"),
      domain_summary := domain_summary }

/-- The override block at the end of `assess_overall_rob2`: a truthy override
token that is a valid risk and differs from the computed overall replaces it
and appends the override note to the reasoning. -/
def applyOverride (res : OverallResult) (assessor_override : Option String)
    (override_justification : String) : OverallResult :=
  match assessor_override with
  | none => res
  | some ov =>
    if ov ≠ "" ∧ ov ∈ valid_risks then
      if ov ≠ res.overall_risk then
        { res with
          overall_risk := ov,
          reasoning := res.reasoning ++ " [Override: Changed from \x27" ++
            res.overall_risk ++ "\x27 to \x27" ++ ov ++ "\x27 - " ++
            override_justification ++ "]" }
      else res
    else res

/-- Embedding of `assess_overall_rob2` from `rob2_overall.py`: strip the five
domain risks, validate them, combine, then apply any assessor override. -/
def assess_overall_rob2 (d1 d2 d3 d4 d5 : String) (assessor_override : Option String)
    (override_justification : String) : Except String OverallResult :=
  let risks := [pyStrip d1, pyStrip d2, pyStrip d3, pyStrip d4, pyStrip d5]
  if ∀ r ∈ risks, r ∈ valid_risks then
    Except.ok (applyOverride (computeCore risks) assessor_override override_justification)
  else
    Except.error "All domain risks must be: \x27Low\x27, \x27Some concerns\x27, or \x27High\x27"

/-- Overall-risk component of an `assess_overall_rob2` outcome, if any. -/
def overallOf (r : Except String OverallResult) : Option String :=
  match r with
  | .ok res => some res.overall_risk
  | .error _ => none

/-- Reasoning component of an `assess_overall_rob2` outcome, if any. -/
def reasoningOf (r : Except String OverallResult) : Option String :=
  match r with
  | .ok res => some res.reasoning
  | .error _ => none

/-- Valid trial-instrument domain risk levels, as an enumeration. -/
inductive Rob2Risk
  | Low | SomeConcerns | High
deriving DecidableEq, Fintype

/-- The label of each trial-instrument risk level. -/
def Rob2Risk.label : Rob2Risk → String
  | .Low => "Low"
  | .SomeConcerns => "Some concerns"
  | .High => "High"

/-- The overall rule of the spec (section 4.3), as a first-match priority
order: any High, else zero SomeConcerns is Low, else at least three
SomeConcerns is High, else SomeConcerns. -/
def specOverall (l : List Rob2Risk) : String :=
  if Rob2Risk.High ∈ l then "High"
  else if l.count Rob2Risk.SomeConcerns = 0 then "Low"
  else if 3 ≤ l.count Rob2Risk.SomeConcerns then "High"
  else "Some concerns"

/-- Stripping a canonical risk label is the identity. -/
theorem Rob2Risk.pyStrip_label (r : Rob2Risk) : pyStrip r.label = r.label := by
  cases r <;> decide

/-- Every canonical risk label is a valid risk token. -/
theorem Rob2Risk.label_valid (r : Rob2Risk) : r.label ∈ valid_risks := by
  cases r <;> decide

/-- A valid risk token is never the empty string. -/
theorem valid_risks_ne_empty {s : String} (h : s ∈ valid_risks) : s ≠ "" := by
  simp only [valid_risks, List.mem_cons, List.not_mem_nil, or_false] at h
  rcases h with rfl | rfl | rfl <;> decide

set_option synthInstance.maxSize 1000 in
set_option maxHeartbeats 2000000 in
/-- C2: for every assignment of the three valid risk labels to the five
domains, `assess_overall_rob2` follows the first-match priority order (any
High gives High; zero Some concerns gives Low; at least three Some concerns
gives High; else Some concerns), and when any domain is High the reasoning
names exactly the High domains. -/
theorem rob2_overall_priority_table (a b c d e : Rob2Risk) :
    overallOf (assess_overall_rob2 a.label b.label c.label d.label e.label none "") =
      some (specOverall [a, b, c, d, e]) ∧
    (Rob2Risk.High ∈ [a, b, c, d, e] →
      reasoningOf (assess_overall_rob2 a.label b.label c.label d.label e.label none "") =
        some ("High risk of bias in: " ++ String.intercalate ", "
          (matchingDomains [a.label, b.label, c.label, d.label, e.label] "High"))) := by
  revert a b c d e
  decide

/-- Closed instance of the C2 theorem at one High domain. -/
theorem rob2_overall_priority_table_witness :
    Rob2Risk.High ∈ [Rob2Risk.High, Rob2Risk.Low, Rob2Risk.Low, Rob2Risk.Low, Rob2Risk.Low] ∧
    reasoningOf (assess_overall_rob2 "High" "Low" "Low" "Low" "Low" none "") =
      some ("High risk of bias in: " ++ String.intercalate ", "
        (matchingDomains ["High", "Low", "Low", "Low", "Low"] "High")) :=
  ⟨by decide,
    (rob2_overall_priority_table .High .Low .Low .Low .Low).2 (by decide)⟩

/-- C7 counterexample: an assessor override with empty justification text is
NOT rejected — with all five domains Low and override High, the returned
overall is the override value High, not the computed Low. -/
theorem rob2_override_empty_justification_applied :
    overallOf (assess_overall_rob2 "Low" "Low" "Low" "Low" "Low" (some "High") "") =
      some "High" ∧
    overallOf (assess_overall_rob2 "Low" "Low" "Low" "Low" "Low" none "") =
      some "Low" := by
  decide

/-- C7 amended: a valid override differing from the computed overall is
applied regardless of the justification text (even empty), and whenever it is
applied the reasoning records both the original computed value and the
override justification. -/
theorem rob2_override_records_original (a b c d e : Rob2Risk) (ov js : String)
    (hov : ov ∈ valid_risks)
    (hne : ov ≠ (computeCore [a.label, b.label, c.label, d.label, e.label]).overall_risk) :
    assess_overall_rob2 a.label b.label c.label d.label e.label (some ov) js =
      Except.ok
        { overall_risk := ov,
          reasoning :=
            (computeCore [a.label, b.label, c.label, d.label, e.label]).reasoning ++
              " [Override: Changed from \x27" ++
              (computeCore [a.label, b.label, c.label, d.label, e.label]).overall_risk ++
              "\x27 to \x27" ++ ov ++ "\x27 - " ++ js ++ "]",
          domain_summary :=
            (computeCore [a.label, b.label, c.label, d.label, e.label]).domain_summary } := by
  unfold assess_overall_rob2
  simp only [Rob2Risk.pyStrip_label]
  rw [if_pos]
  · simp only [applyOverride]
    rw [if_pos ⟨valid_risks_ne_empty hov, hov⟩, if_pos hne]
  · intro r hr
    simp only [List.mem_cons, List.not_mem_nil, or_false] at hr
    rcases hr with rfl | rfl | rfl | rfl | rfl <;> exact Rob2Risk.label_valid _

/-- Closed instance of the amended C7 theorem: all domains Low, override High
with empty justification. -/
theorem rob2_override_records_original_witness :
    "High" ∈ valid_risks ∧
    assess_overall_rob2 "Low" "Low" "Low" "Low" "Low" (some "High") "" =
      Except.ok
        { overall_risk := "High",
          reasoning :=
            (computeCore ["Low", "Low", "Low", "Low", "Low"]).reasoning ++
              " [Override: Changed from \x27" ++
              (computeCore ["Low", "Low", "Low", "Low", "Low"]).overall_risk ++
              "\x27 to \x27" ++ "High" ++ "\x27 - " ++ "" ++ "]",
          domain_summary := (computeCore ["Low", "Low", "Low", "Low", "Low"]).domain_summary } :=
  ⟨by decide,
    rob2_override_records_original .Low .Low .Low .Low .Low "High" "" (by decide) (by decide)⟩

/-- C10: an override token outside the valid list (misspelled or empty) is
silently ignored: the result is identical to calling with no override, and on
valid domain risks the call still succeeds with the computed core result. -/
theorem rob2_invalid_override_ignored (d1 d2 d3 d4 d5 s js : String)
    (hs : s ∉ valid_risks) :
    assess_overall_rob2 d1 d2 d3 d4 d5 (some s) js =
      assess_overall_rob2 d1 d2 d3 d4 d5 none "" ∧
    ((∀ r ∈ [pyStrip d1, pyStrip d2, pyStrip d3, pyStrip d4, pyStrip d5], r ∈ valid_risks) →
      assess_overall_rob2 d1 d2 d3 d4 d5 (some s) js =
        Except.ok (computeCore [pyStrip d1, pyStrip d2, pyStrip d3, pyStrip d4, pyStrip d5])) := by
  have hskip :
      applyOverride (computeCore [pyStrip d1, pyStrip d2, pyStrip d3, pyStrip d4, pyStrip d5])
        (some s) js =
      computeCore [pyStrip d1, pyStrip d2, pyStrip d3, pyStrip d4, pyStrip d5] := by
    simp only [applyOverride]
    rw [if_neg (fun h => hs h.2)]
  constructor
  · unfold assess_overall_rob2
    dsimp only
    split
    · rw [hskip]
      rfl
    · rfl
  · intro hvalid
    unfold assess_overall_rob2
    dsimp only
    rw [if_pos hvalid, hskip]

/-- Closed instance of the C10 theorem: lowercase token low is not a valid
override and is ignored. -/
theorem rob2_invalid_override_ignored_witness :
    "low" ∉ valid_risks ∧
    assess_overall_rob2 "Low" "Low" "Low" "Low" "Low" (some "low") "why" =
      assess_overall_rob2 "Low" "Low" "Low" "Low" "Low" none "" ∧
    assess_overall_rob2 "Low" "Low" "Low" "Low" "Low" (some "low") "why" =
      Except.ok (computeCore [pyStrip "Low", pyStrip "Low", pyStrip "Low", pyStrip "Low", pyStrip "Low"]) :=
  ⟨by decide,
    (rob2_invalid_override_ignored "Low" "Low" "Low" "Low" "Low" "low" "why" (by decide)).1,
    (rob2_invalid_override_ignored "Low" "Low" "Low" "Low" "Low" "low" "why" (by decide)).2
      (by decide)⟩

end Rob2Overall

namespace RobinsED3

/-- Answer alphabet of the ROBINS-E domain 3 questions. -/
inductive Response
  | Y | PY | N | PN | NI | SN | WN
deriving DecidableEq, Fintype

/-- The `.value` string of each domain 3 response. -/
def Response.val : Response → String
  | .Y => "Y"
  | .PY => "PY"
  | .N => "N"
  | .PN => "PN"
  | .NI => "NI"
  | .SN => "SN"
  | .WN => "WN"

/-- Pathway-level risk levels of domain 3. -/
inductive PathwayRisk
  | LOW_RISK | SOME_CONCERNS | HIGH_RISK
deriving DecidableEq

/-- Embedding of `_is_positive_response` (Y/PY). -/
def is_positive_response (r : Response) : Bool :=
  [Response.Y, Response.PY].contains r

/-- Embedding of `_is_negative_response` (N/PN). -/
def is_negative_response (r : Response) : Bool :=
  [Response.N, Response.PN].contains r

/-- Embedding of `_is_positive_or_ni` (Y/PY/NI). -/
def is_positive_or_ni (r : Response) : Bool :=
  [Response.Y, Response.PY, Response.NI].contains r

/-- Embedding of `_assess_pathway_a` from `robins_e_domain3.py` (the timing
pathway); `none` models a missing dictionary key. -/
def assess_pathway_a (q3_1 q3_2 : Option Response) : PathwayRisk × List String :=
  match q3_1 with
  | none => (.SOME_CONCERNS, ["Missing Q3.1 response"])
  | some r1 =>
    let pathway := ["Q3.1 Starts of exposure and follow-up coincide? -> " ++ r1.val]
    match q3_2 with
    | none => (.SOME_CONCERNS, pathway ++ ["Missing Q3.2 response"])
    | some r2 =>
      let pathway := pathway ++ ["Q3.2 Effect constant over time? -> " ++ r2.val]
      if is_positive_response r1 then
        if is_positive_response r2 then (.LOW_RISK, pathway)
        else if is_positive_or_ni r2 then (.SOME_CONCERNS, pathway)
        else if is_negative_response r2 then (.HIGH_RISK, pathway)
        else (.SOME_CONCERNS, pathway)
      else
        if is_positive_response r2 then (.LOW_RISK, pathway)
        else if is_positive_or_ni r2 then (.SOME_CONCERNS, pathway)
        else if is_negative_response r2 then (.HIGH_RISK, pathway)
        else (.SOME_CONCERNS, pathway)

end RobinsED3

namespace RobinsEOverall

/-- Risk levels for individual ROBINS-E domains. -/
inductive DomainRisk
  | LOW_RISK | SOME_CONCERNS | HIGH_RISK | VERY_HIGH_RISK
deriving DecidableEq, Fintype

/-- Overall ROBINS-E risk-of-bias levels. -/
inductive OverallRisk
  | LOW_RISK_EXCEPT_CONFOUNDING | SOME_CONCERNS | HIGH_RISK | VERY_HIGH_RISK
deriving DecidableEq

/-- Whether bias threatens the conclusions. -/
inductive ConclusionThreat
  | YES | NO | CANNOT_TELL
deriving DecidableEq

/-- The ordered domain keys of `ROBINSEOverallAssessment.domain_names`. -/
def domainKeys : List String :=
  ["domain_1", "domain_2", "domain_3", "domain_4", "domain_5", "domain_6", "domain_7"]

/-- Result of `_determine_overall_risk`. -/
structure RiskResult where
  overall_risk : OverallRisk
  rationale : String
  contributing_domains : List String
deriving DecidableEq

/-- Embedding of the comprehension
`[domain for domain, risk in domain_assessments.items() if risk == level]`. -/
def domainsWith (ds : List (String × DomainRisk)) (level : DomainRisk) : List String :=
  ds.filterMap fun p => if p.2 = level then some p.1 else none

/-- Embedding of `_determine_overall_risk` from `robins_e_overall.py`, on
seven normalized domain risks in key order. -/
def determine_overall_risk (d1 d2 d3 d4 d5 d6 d7 : DomainRisk) : RiskResult :=
  let risks := [d1, d2, d3, d4, d5, d6, d7]
  let ds := domainKeys.zip risks
  if risks.count .VERY_HIGH_RISK ≥ 1 then
    ⟨.VERY_HIGH_RISK, "at_least_one_very_high_risk_domain", domainsWith ds .VERY_HIGH_RISK⟩
  else if risks.count .HIGH_RISK ≥ 3 then
    ⟨.VERY_HIGH_RISK, "several_high_risk_domains_additive", domainsWith ds .HIGH_RISK⟩
  else if risks.count .HIGH_RISK ≥ 1 then
    ⟨.HIGH_RISK, "at_least_one_high_risk_domain", domainsWith ds .HIGH_RISK⟩
  else if risks.count .SOME_CONCERNS ≥ 4 then
    ⟨.HIGH_RISK, "several_some_concerns_domains_additive", domainsWith ds .SOME_CONCERNS⟩
  else if risks.count .SOME_CONCERNS ≥ 1 then
    ⟨.SOME_CONCERNS, "at_least_one_some_concerns_domain", domainsWith ds .SOME_CONCERNS⟩
  else if d1 = .LOW_RISK ∧ ∀ r ∈ [d2, d3, d4, d5, d6, d7], r = DomainRisk.LOW_RISK then
    ⟨.LOW_RISK_EXCEPT_CONFOUNDING, "low_risk_all_domains_confounding_caveat", []⟩
  else
    ⟨.SOME_CONCERNS, "unexpected_risk_combination", []⟩

/-- Result of `assess_overall_bias_risk` (keys used by the incomplete and the
complete branch are merged into one record, with empty defaults). -/
structure OverallBiasResult where
  overall_risk : OverallRisk
  rationale : String
  missing_domains : List String
  contributing_domains : List String
deriving DecidableEq

/-- The `missing_domains` list collected by `assess_overall_bias_risk`:
domain keys whose assessment is absent, in key order. -/
def missingOf (i1 i2 i3 i4 i5 i6 i7 : Option DomainRisk) : List String :=
  (domainKeys.zip [i1, i2, i3, i4, i5, i6, i7]).filterMap
    fun p => if p.2.isNone then some p.1 else none

/-- Embedding of `assess_overall_bias_risk` from `robins_e_overall.py` on
already-normalized per-domain inputs (`none` models a missing key). -/
def assess_overall_bias_risk (i1 i2 i3 i4 i5 i6 i7 : Option DomainRisk) :
    OverallBiasResult :=
  match i1, i2, i3, i4, i5, i6, i7 with
  | some d1, some d2, some d3, some d4, some d5, some d6, some d7 =>
    let r := determine_overall_risk d1 d2 d3 d4 d5 d6 d7
    ⟨r.overall_risk, r.rationale, [], r.contributing_domains⟩
  | _, _, _, _, _, _, _ =>
    ⟨.SOME_CONCERNS, "incomplete_domain_assessments", missingOf i1 i2 i3 i4 i5 i6 i7, []⟩

/-- Result of `assess_conclusion_threat`. -/
structure ThreatResult where
  conclusion_threat : ConclusionThreat
  rationale : String
  threatening_domains : List String
  uncertain_domains : List String
deriving DecidableEq

/-- Embedding of `assess_conclusion_threat` from `robins_e_overall.py`; the
input models the Python dict as an association list in key order. -/
def assess_conclusion_threat (m : List (String × ConclusionThreat)) : ThreatResult :=
  if m = [] then
    ⟨.CANNOT_TELL, "no_threat_assessments_provided", [], []⟩
  else
    let vals := m.map Prod.snd
    if vals.count .YES ≥ 1 then
      ⟨.YES, "bias_threatens_conclusions_in_any_domain",
        m.filterMap (fun p => if p.2 = .YES then some p.1 else none), []⟩
    else if vals.count .NO ≥ 1 ∧ vals.count .YES = 0 then
      ⟨.NO, "bias_does_not_threaten_conclusions", [], []⟩
    else
      ⟨.CANNOT_TELL, "uncertain_threat_assessment", [],
        m.filterMap (fun p => if p.2 = .CANNOT_TELL then some p.1 else none)⟩

/-- The spec overall rule (section 4.5), as a first-match priority order on
the seven domain risks (confounding first). -/
def specOverallRisk (risks : List DomainRisk) : OverallRisk :=
  if DomainRisk.VERY_HIGH_RISK ∈ risks then .VERY_HIGH_RISK
  else if 3 ≤ risks.count .HIGH_RISK then .VERY_HIGH_RISK
  else if DomainRisk.HIGH_RISK ∈ risks then .HIGH_RISK
  else if 4 ≤ risks.count .SOME_CONCERNS then .HIGH_RISK
  else if DomainRisk.SOME_CONCERNS ∈ risks then .SOME_CONCERNS
  else .LOW_RISK_EXCEPT_CONFOUNDING

end RobinsEOverall

namespace RobinsEOverall

/-- A list of domain risks avoiding VeryHigh, High and Some concerns is all
Low. -/
theorem all_low_of_no_severe {l : List DomainRisk}
    (hv : DomainRisk.VERY_HIGH_RISK ∉ l) (hh : DomainRisk.HIGH_RISK ∉ l)
    (hs : DomainRisk.SOME_CONCERNS ∉ l) : ∀ r ∈ l, r = DomainRisk.LOW_RISK := by
  intro r hr
  cases r with
  | LOW_RISK => rfl
  | SOME_CONCERNS => exact absurd hr hs
  | HIGH_RISK => exact absurd hr hh
  | VERY_HIGH_RISK => exact absurd hr hv

/-- C1: on every full assignment of valid risks to the seven domains, the
ROBINS-E overall combinator follows the first-match priority order (any
VeryHigh; at least three High gives VeryHigh; any High; at least four Some
concerns gives High; any Some concerns; else the caveated Low), and the
caveated Low is returned exactly when every domain, confounding included, is
Low. -/
theorem robins_e_overall_priority_table (d1 d2 d3 d4 d5 d6 d7 : DomainRisk) :
    (determine_overall_risk d1 d2 d3 d4 d5 d6 d7).overall_risk =
      specOverallRisk [d1, d2, d3, d4, d5, d6, d7] ∧
    ((determine_overall_risk d1 d2 d3 d4 d5 d6 d7).overall_risk =
        OverallRisk.LOW_RISK_EXCEPT_CONFOUNDING ↔
      ∀ r ∈ [d1, d2, d3, d4, d5, d6, d7], r = DomainRisk.LOW_RISK) := by
  unfold determine_overall_risk specOverallRisk
  dsimp only
  by_cases hv : DomainRisk.VERY_HIGH_RISK ∈ [d1, d2, d3, d4, d5, d6, d7]
  · rw [if_pos (show List.count DomainRisk.VERY_HIGH_RISK [d1, d2, d3, d4, d5, d6, d7] ≥ 1
      from List.count_pos_iff.mpr hv), if_pos hv]
    exact ⟨rfl, fun h => OverallRisk.noConfusion h,
      fun hall => absurd (hall _ hv) (by decide)⟩
  · rw [if_neg (show ¬ List.count DomainRisk.VERY_HIGH_RISK [d1, d2, d3, d4, d5, d6, d7] ≥ 1
      by rw [List.count_eq_zero.mpr hv]; omega), if_neg hv]
    by_cases h3 : 3 ≤ List.count DomainRisk.HIGH_RISK [d1, d2, d3, d4, d5, d6, d7]
    · rw [if_pos (show List.count DomainRisk.HIGH_RISK [d1, d2, d3, d4, d5, d6, d7] ≥ 3
        from h3), if_pos h3]
      refine ⟨rfl, fun h => OverallRisk.noConfusion h, fun hall => ?_⟩
      exfalso
      have hh : DomainRisk.HIGH_RISK ∉ [d1, d2, d3, d4, d5, d6, d7] :=
        fun hm => absurd (hall _ hm) (by decide)
      rw [List.count_eq_zero.mpr hh] at h3
      omega
    · rw [if_neg (show ¬ List.count DomainRisk.HIGH_RISK [d1, d2, d3, d4, d5, d6, d7] ≥ 3
        from h3), if_neg h3]
      by_cases hh : DomainRisk.HIGH_RISK ∈ [d1, d2, d3, d4, d5, d6, d7]
      · rw [if_pos (show List.count DomainRisk.HIGH_RISK [d1, d2, d3, d4, d5, d6, d7] ≥ 1
          from List.count_pos_iff.mpr hh), if_pos hh]
        exact ⟨rfl, fun h => OverallRisk.noConfusion h,
          fun hall => absurd (hall _ hh) (by decide)⟩
      · rw [if_neg (show ¬ List.count DomainRisk.HIGH_RISK [d1, d2, d3, d4, d5, d6, d7] ≥ 1
          by rw [List.count_eq_zero.mpr hh]; omega), if_neg hh]
        by_cases h4 : 4 ≤ List.count DomainRisk.SOME_CONCERNS [d1, d2, d3, d4, d5, d6, d7]
        · rw [if_pos (show List.count DomainRisk.SOME_CONCERNS [d1, d2, d3, d4, d5, d6, d7] ≥ 4
            from h4), if_pos h4]
          refine ⟨rfl, fun h => OverallRisk.noConfusion h, fun hall => ?_⟩
          exfalso
          have hs : DomainRisk.SOME_CONCERNS ∉ [d1, d2, d3, d4, d5, d6, d7] :=
            fun hm => absurd (hall _ hm) (by decide)
          rw [List.count_eq_zero.mpr hs] at h4
          omega
        · rw [if_neg (show ¬ List.count DomainRisk.SOME_CONCERNS [d1, d2, d3, d4, d5, d6, d7] ≥ 4
            from h4), if_neg h4]
          by_cases hs : DomainRisk.SOME_CONCERNS ∈ [d1, d2, d3, d4, d5, d6, d7]
          · rw [if_pos (show List.count DomainRisk.SOME_CONCERNS [d1, d2, d3, d4, d5, d6, d7] ≥ 1
              from List.count_pos_iff.mpr hs), if_pos hs]
            exact ⟨rfl, fun h => OverallRisk.noConfusion h,
              fun hall => absurd (hall _ hs) (by decide)⟩
          · rw [if_neg (show ¬ List.count DomainRisk.SOME_CONCERNS [d1, d2, d3, d4, d5, d6, d7] ≥ 1
              by rw [List.count_eq_zero.mpr hs]; omega), if_neg hs]
            have hall : ∀ r ∈ [d1, d2, d3, d4, d5, d6, d7], r = DomainRisk.LOW_RISK :=
              all_low_of_no_severe hv hh hs
            rw [if_pos ⟨hall d1 (List.mem_cons_self _ _),
              fun r hr => hall r (List.mem_cons_of_mem _ hr)⟩]
            exact ⟨rfl, fun _ => hall, fun _ => rfl⟩

end RobinsEOverall

namespace RobinsED1

/-- Answer alphabet of the ROBINS-E domain 1 questions (including the graded
confidence tokens). -/
inductive Response
  | Y | PY | N | PN | NI | SN | WN | VPY
deriving DecidableEq, Fintype

/-- The `.value` string of each domain 1 response. -/
def Response.val : Response → String
  | .Y => "Y"
  | .PY => "PY"
  | .N => "N"
  | .PN => "PN"
  | .NI => "NI"
  | .SN => "SN"
  | .WN => "WN"
  | .VPY => "VPY"

/-- Risk of bias levels of domain 1. -/
inductive RiskLevel
  | LOW_RISK | SOME_CONCERNS | HIGH_RISK | VERY_HIGH_RISK
deriving DecidableEq

/-- Result of a domain 1 variant run. -/
structure VariantResult where
  risk_level : RiskLevel
  pathway : List String
  variant : String
deriving DecidableEq

/-- Embedding of `_is_positive_response` (Y/PY). -/
def is_positive_response (r : Response) : Bool :=
  [Response.Y, Response.PY].contains r

/-- Embedding of `_is_negative_response` (N/PN). -/
def is_negative_response (r : Response) : Bool :=
  [Response.N, Response.PN].contains r

/-- Embedding of `_is_strong_negative` (SN/NI). -/
def is_strong_negative (r : Response) : Bool :=
  [Response.SN, Response.NI].contains r

/-- Embedding of `_is_weak_negative` (WN). -/
def is_weak_negative (r : Response) : Bool :=
  r == Response.WN

/-- Embedding of `variant_b_algorithm` from `robins_e_domain1.py`. Arguments:
`q1_1_appropriate_method`, `q1_2_controlled_important`,
`q1_3_factors_measured`, `q1_4_post_exposure_vars`,
`q1_5_negative_controls`. -/
def variant_b_algorithm (q1_1 q1_2 q1_3 q1_4_vars q1_5 : Response) : VariantResult :=
  let pathway := ["Q1.1 Appropriate analysis method? -> " ++ q1_1.val]
  if [Response.N, Response.PN, Response.NI].contains q1_1 then
    ⟨.HIGH_RISK, pathway ++ ["Direct path to HIGH RISK"], "B"⟩
  else if is_positive_response q1_1 then
    let pathway := pathway ++
      ["Q1.2 Controlled for all important confounding factors? -> " ++ q1_2.val]
    if is_strong_negative q1_2 then
      ⟨.HIGH_RISK, pathway ++ ["SN/NI path to HIGH RISK"], "B"⟩
    else if is_weak_negative q1_2 then
      let pathway := pathway ++
        ["Q1.4 Controlled for variables measured after start of exposure? -> " ++ q1_4_vars.val]
      if is_positive_response q1_4_vars then
        ⟨.VERY_HIGH_RISK, pathway ++ ["Y/PY path to VERY HIGH RISK"], "B"⟩
      else
        let pathway := pathway ++
          ["Q1.5 Negative controls suggest serious uncontrolled confounding? -> " ++ q1_5.val]
        if is_positive_response q1_5 then ⟨.SOME_CONCERNS, pathway, "B"⟩
        else ⟨.LOW_RISK, pathway, "B"⟩
    else if is_positive_response q1_2 then
      let pathway := pathway ++
        ["Q1.3 Confounding factors measured validly and reliably? -> " ++ q1_3.val]
      if is_strong_negative q1_3 then
        ⟨.HIGH_RISK, pathway ++ ["SN/NI path to HIGH RISK"], "B"⟩
      else
        let pathway := pathway ++
          ["Q1.5 Negative controls suggest serious uncontrolled confounding? -> " ++ q1_5.val]
        if is_positive_response q1_5 then ⟨.SOME_CONCERNS, pathway, "B"⟩
        else ⟨.LOW_RISK, pathway, "B"⟩
    else
      ⟨.HIGH_RISK, pathway ++ ["Fallback to HIGH RISK"], "B"⟩
  else
    ⟨.HIGH_RISK, pathway ++ ["Fallback to HIGH RISK"], "B"⟩

/-- Embedding of `variant_a_algorithm` from `robins_e_domain1.py`. Arguments:
`q1_1_controlled_important`, `q1_3_post_exposure`, `q1_2_factors_measured`,
`q1_4_negative_controls`. -/
def variant_a_algorithm (q1_1 q1_3_post q1_2 q1_4_neg : Response) : VariantResult :=
  let pathway := ["Q1.1 Controlled for all important confounding factors? -> " ++ q1_1.val]
  if is_strong_negative q1_1 then
    ⟨.HIGH_RISK, pathway ++ ["SN/NI path to HIGH RISK"], "A"⟩
  else if is_positive_response q1_1 || is_weak_negative q1_1 then
    let pathway := pathway ++
      ["Q1.3 Control for any post-exposure variables? -> " ++ q1_3_post.val]
    if is_positive_response q1_3_post then
      let pathway := pathway ++
        ["Q1.4 Negative controls suggest serious uncontrolled confounding? -> " ++ q1_4_neg.val]
      if is_positive_response q1_4_neg then ⟨.SOME_CONCERNS, pathway, "A"⟩
      else ⟨.LOW_RISK, pathway, "A"⟩
    else if is_negative_response q1_3_post then
      let pathway := pathway ++
        ["Q1.2 Confounding factors measured validly and reliably? -> " ++ q1_2.val]
      if is_strong_negative q1_2 then
        ⟨.HIGH_RISK, pathway ++ ["SN/NI path to HIGH RISK"], "A"⟩
      else if is_positive_response q1_2 then
        ⟨.VERY_HIGH_RISK, pathway ++ ["Y/PY path to VERY HIGH RISK"], "A"⟩
      else
        let pathway := pathway ++
          ["Q1.4 Negative controls suggest serious uncontrolled confounding? -> " ++ q1_4_neg.val]
        if is_positive_response q1_4_neg then ⟨.SOME_CONCERNS, pathway, "A"⟩
        else ⟨.LOW_RISK, pathway, "A"⟩
    else
      ⟨.HIGH_RISK, pathway ++ ["Fallback to HIGH RISK"], "A"⟩
  else
    ⟨.HIGH_RISK, pathway ++ ["Fallback to HIGH RISK"], "A"⟩

/-- Appending to a string of length above 21 keeps the length above 21. -/
theorem length_append_gt (p x : String) (hp : 21 < p.length) : 21 < (p ++ x).length := by
  rw [String.length_append]
  omega

/-- A string longer than the 21-character fallback marker is not the marker. -/
theorem ne_marker_of_long {s : String} (hs : 21 < s.length) :
    s ≠ "Fallback to HIGH RISK" := by
  intro h
  subst h
  exact absurd hs (by decide)

end RobinsED1

namespace RobinsED1

/-- C9: in both confounding variants, any run whose pathway carries the
fallback marker has High risk (so the fallback never yields Low or Some
concerns), and the marker is appended at the end of the pathway, as on the
variant A run with a NoInformation answer to the post-exposure question. -/
theorem robins_e_confounding_fallback_high :
    (∀ a b c d e : Response,
        "Fallback to HIGH RISK" ∈ (variant_b_algorithm a b c d e).pathway →
        (variant_b_algorithm a b c d e).risk_level = RiskLevel.HIGH_RISK) ∧
    (∀ a b c d : Response,
        "Fallback to HIGH RISK" ∈ (variant_a_algorithm a b c d).pathway →
        (variant_a_algorithm a b c d).risk_level = RiskLevel.HIGH_RISK) ∧
    (variant_a_algorithm .Y .NI .Y .N).risk_level = RiskLevel.HIGH_RISK ∧
    (variant_a_algorithm .Y .NI .Y .N).pathway.getLast? = some "Fallback to HIGH RISK" := by
  refine ⟨?_, ?_, by decide, by decide⟩
  · intro a b c d e h
    unfold variant_b_algorithm at h ⊢
    dsimp only at h ⊢
    split_ifs at h ⊢ <;>
      first
        | rfl
        | (exfalso
           repeat' rcases List.mem_cons.mp h with h | h
           all_goals
             first
               | exact absurd h (List.not_mem_nil _)
               | exact ne_marker_of_long (length_append_gt _ _ (by decide)) h.symm
               | exact ne_marker_of_long (by decide) h.symm)
  · intro a b c d h
    unfold variant_a_algorithm at h ⊢
    dsimp only at h ⊢
    split_ifs at h ⊢ <;>
      first
        | rfl
        | (exfalso
           repeat' rcases List.mem_cons.mp h with h | h
           all_goals
             first
               | exact absurd h (List.not_mem_nil _)
               | exact ne_marker_of_long (length_append_gt _ _ (by decide)) h.symm
               | exact ne_marker_of_long (by decide) h.symm)

/-- Closed instance of the C9 theorem: a variant B run that takes the
fallback (VPY at the root) carries the marker and has High risk. -/
theorem robins_e_confounding_fallback_high_witness :
    "Fallback to HIGH RISK" ∈ (variant_b_algorithm .VPY .Y .Y .Y .Y).pathway ∧
    (variant_b_algorithm .VPY .Y .Y .Y .Y).risk_level = RiskLevel.HIGH_RISK :=
  ⟨by decide,
    robins_e_confounding_fallback_high.1 .VPY .Y .Y .Y .Y (by decide)⟩

end RobinsED1

namespace RobinsED7

/-- Answer alphabet of the ROBINS-E domain 7 questions. -/
inductive Response
  | Y | PY | N | PN | NI
deriving DecidableEq, Fintype

/-- The `.value` string of each domain 7 response. -/
def Response.val : Response → String
  | .Y => "Y"
  | .PY => "PY"
  | .N => "N"
  | .PN => "PN"
  | .NI => "NI"

/-- Risk of bias levels of domain 7. -/
inductive RiskLevel
  | LOW_RISK | SOME_CONCERNS | HIGH_RISK | VERY_HIGH_RISK
deriving DecidableEq

/-- Embedding of `_is_positive_response` (Y/PY). -/
def is_positive_response (r : Response) : Bool :=
  [Response.Y, Response.PY].contains r

/-- Embedding of `_is_no_information` (NI). -/
def is_no_information (r : Response) : Bool :=
  r == Response.NI

/-- Embedding of `_is_negative_response` (N/PN). -/
def is_negative_response (r : Response) : Bool :=
  [Response.N, Response.PN].contains r

/-- Result of `_assess_selection_bias`. -/
structure SelectionAssessment where
  risk_level : RiskLevel
  rationale : String
  positive_count : Nat
  ni_count : Nat
  negative_count : Nat
deriving DecidableEq

/-- Embedding of `_assess_selection_bias` from `robins_e_domain7.py` over the
four selection questions Q7.2 to Q7.5 (`none` models a missing key). -/
def assess_selection_bias (q72 q73 q74 q75 : Option Response) : SelectionAssessment :=
  let answered := [q72, q73, q74, q75].filterMap id
  let positive_count := (answered.filter fun r => is_positive_response r).length
  let ni_count := (answered.filter fun r => is_no_information r).length
  let negative_count := (answered.filter fun r => is_negative_response r).length
  if answered.length < 4 then
    ⟨.SOME_CONCERNS, "incomplete_selection_assessment",
      positive_count, ni_count, negative_count⟩
  else if positive_count = 0 ∧ ni_count = 0 then
    ⟨.LOW_RISK, "no_selective_reporting", positive_count, ni_count, negative_count⟩
  else if positive_count = 0 ∧ ni_count > 0 then
    ⟨.SOME_CONCERNS, "unclear_selective_reporting", positive_count, ni_count, negative_count⟩
  else if positive_count ≤ 2 then
    ⟨.HIGH_RISK, "moderate_selective_reporting", positive_count, ni_count, negative_count⟩
  else
    ⟨.VERY_HIGH_RISK, "extensive_selective_reporting", positive_count, ni_count, negative_count⟩

/-- Result of `assess_reported_results_bias`. -/
structure ReportedResult where
  risk_level : RiskLevel
  pathway : List String
  rationale : String
deriving DecidableEq

/-- Embedding of `assess_reported_results_bias` from `robins_e_domain7.py`. -/
def assess_reported_results_bias (q71 q72 q73 q74 q75 : Option Response) : ReportedResult :=
  match q71 with
  | none =>
    ⟨.SOME_CONCERNS, ["Missing Q7.1 response"], "incomplete_plan_adherence_assessment"⟩
  | some r71 =>
    let pathway := ["Q7.1 Result reported according to analysis plan? -> " ++ r71.val]
    if is_positive_response r71 then
      ⟨.LOW_RISK, pathway ++ ["Y/PY path -> LOW RISK OF BIAS"], "results_according_to_plan"⟩
    else
      let pathway := pathway ++ ["N/PN/NI path -> Assessing selective reporting"]
      let sel := assess_selection_bias q72 q73 q74 q75
      let pathway := pathway ++
        ["Selection assessment: " ++ toString sel.positive_count ++ " positive, " ++
          toString sel.ni_count ++ " no information, " ++
          toString sel.negative_count ++ " negative"]
      ⟨sel.risk_level, pathway, sel.rationale⟩

set_option maxHeartbeats 2000000 in
/-- C5: when Q7.1 is answered but not positively and all four selection
questions are answered, the verdict is fixed by the number of affirmative
selection answers: zero with no NoInformation gives Low, zero with some
NoInformation gives Some concerns, one or two give High, three or more give
Very high. -/
theorem robins_e_domain7_selection_counts (r71 r72 r73 r74 r75 : Response)
    (h : is_positive_response r71 = false) :
    (assess_reported_results_bias (some r71) (some r72) (some r73) (some r74)
        (some r75)).risk_level =
      (if ([r72, r73, r74, r75].filter fun r => is_positive_response r).length = 0 ∧
          ([r72, r73, r74, r75].filter fun r => is_no_information r).length = 0 then
        RiskLevel.LOW_RISK
      else if ([r72, r73, r74, r75].filter fun r => is_positive_response r).length = 0 then
        RiskLevel.SOME_CONCERNS
      else if ([r72, r73, r74, r75].filter fun r => is_positive_response r).length ≤ 2 then
        RiskLevel.HIGH_RISK
      else RiskLevel.VERY_HIGH_RISK) := by
  revert r71 r72 r73 r74 r75
  decide

/-- Closed instance of the C5 theorem: four affirmative selection answers
under a negative Q7.1 give Very high risk. -/
theorem robins_e_domain7_selection_counts_witness :
    (assess_reported_results_bias (some .N) (some .Y) (some .Y) (some .Y)
        (some .Y)).risk_level = RiskLevel.VERY_HIGH_RISK :=
  robins_e_domain7_selection_counts .N .Y .Y .Y .Y (by decide)

end RobinsED7

namespace RobinsEOverall

/-- C3 counterexample: the per-domain threats No, No, CannotTell reduce to
No, not to CannotTell. -/
theorem robins_e_conclusion_threat_counterexample :
    (assess_conclusion_threat
        [("domain_1", .NO), ("domain_2", .NO), ("domain_3", .CANNOT_TELL)]).conclusion_threat =
      ConclusionThreat.NO ∧
    ConclusionThreat.NO ≠ ConclusionThreat.CANNOT_TELL := by
  decide

/-- C3 amended: the conclusion-threat combinator reduces by: any Yes gives
Yes; otherwise any No gives No; otherwise CannotTell — and an empty mapping
yields CannotTell with the explicit no-data rationale rather than failing. -/
theorem robins_e_conclusion_threat_reduction (m : List (String × ConclusionThreat)) :
    ((assess_conclusion_threat m).conclusion_threat =
      (if ConclusionThreat.YES ∈ m.map Prod.snd then ConclusionThreat.YES
       else if ConclusionThreat.NO ∈ m.map Prod.snd then ConclusionThreat.NO
       else ConclusionThreat.CANNOT_TELL)) ∧
    (m = [] → (assess_conclusion_threat m).rationale = "no_threat_assessments_provided") := by
  constructor
  · unfold assess_conclusion_threat
    by_cases hm : m = []
    · subst hm
      simp
    · rw [if_neg hm]
      dsimp only
      by_cases hy : ConclusionThreat.YES ∈ m.map Prod.snd
      · rw [if_pos (show List.count ConclusionThreat.YES (m.map Prod.snd) ≥ 1 from
            List.count_pos_iff.mpr hy), if_pos hy]
      · rw [if_neg (show ¬ List.count ConclusionThreat.YES (m.map Prod.snd) ≥ 1 by
            rw [List.count_eq_zero.mpr hy]; omega), if_neg hy]
        by_cases hn : ConclusionThreat.NO ∈ m.map Prod.snd
        · rw [if_pos ⟨show List.count ConclusionThreat.NO (m.map Prod.snd) ≥ 1 from
            List.count_pos_iff.mpr hn, List.count_eq_zero.mpr hy⟩, if_pos hn]
        · rw [if_neg (show ¬ (List.count ConclusionThreat.NO (m.map Prod.snd) ≥ 1 ∧
              List.count ConclusionThreat.YES (m.map Prod.snd) = 0) by
            rw [List.count_eq_zero.mpr hn]; omega), if_neg hn]
  · intro h
    subst h
    rfl

/-- Closed instance of the C3 amended theorem at the empty mapping. -/
theorem robins_e_conclusion_threat_reduction_witness :
    (assess_conclusion_threat []).rationale = "no_threat_assessments_provided" :=
  (robins_e_conclusion_threat_reduction []).2 rfl

/-- C6 counterexample: with every domain assessment missing, the engine does
not refuse — it still returns the scored risk classification Some concerns
(tagged with the incomplete rationale). -/
theorem robins_e_incomplete_input_counterexample :
    (assess_overall_bias_risk none none none none none none none).overall_risk =
      OverallRisk.SOME_CONCERNS ∧
    (assess_overall_bias_risk none none none none none none none).rationale =
      "incomplete_domain_assessments" := by
  decide

/-- C6 amended: on incomplete input the ROBINS-E overall combinator reports
the missing domains under the distinct incomplete rationale but still returns
a default Some concerns classification instead of refusing, and the domain 3
timing pathway likewise reports a missing Q3.1 with Some concerns. -/
theorem robins_e_incomplete_input_reported :
    (∀ i1 i2 i3 i4 i5 i6 i7 : Option DomainRisk,
        missingOf i1 i2 i3 i4 i5 i6 i7 ≠ [] →
        assess_overall_bias_risk i1 i2 i3 i4 i5 i6 i7 =
          ⟨OverallRisk.SOME_CONCERNS, "incomplete_domain_assessments",
            missingOf i1 i2 i3 i4 i5 i6 i7, []⟩) ∧
    (∀ q3_2 : Option RobinsED3.Response,
        RobinsED3.assess_pathway_a none q3_2 =
          (RobinsED3.PathwayRisk.SOME_CONCERNS, ["Missing Q3.1 response"])) := by
  constructor
  · intro i1 i2 i3 i4 i5 i6 i7 h
    cases i1 <;> cases i2 <;> cases i3 <;> cases i4 <;> cases i5 <;> cases i6 <;> cases i7 <;>
      first
        | rfl
        | exact absurd rfl h
  · intro q3_2
    rfl

/-- Closed instance of the C6 amended theorem: all seven assessments missing. -/
theorem robins_e_incomplete_input_reported_witness :
    assess_overall_bias_risk none none none none none none none =
      ⟨OverallRisk.SOME_CONCERNS, "incomplete_domain_assessments",
        missingOf none none none none none none none, []⟩ :=
  robins_e_incomplete_input_reported.1 none none none none none none none (by decide)

end RobinsEOverall
